import Mathlib

/-!
Shallow embedding of the order-request normalization and validation layer of
the aplaca repository (src/alpaca_api/models.py and src/alpaca_api/main.py).

Modelling conventions:
* Python `Decimal` fields are modelled as `ℚ`; Python `float` (`ratio_qty`)
  is also modelled as `ℚ` (it is only ever copied verbatim, never computed
  with).
* Pydantic enums are modelled as Lean inductives carrying exactly the values
  the schema accepts; a request whose `type` is not one of the enum values is
  rejected by the schema layer (HTTP 422) and never reaches the resolvers, so
  the resolver domain is exactly these inductives.
* `ValueError`-free enum round-trips in the source (`TimeInForce(x.value)`,
  `OrderType(x.value)`, `OrderSide(x.value)`, `AlpacaPositionIntent(x.value)`)
  are identities: the wrapper enums and the SDK enums have the same value
  sets, so the embedding passes the member through unchanged.
* `raise HTTPException(status_code=400, detail=...)` is modelled as
  `Except.error ⟨400, detail⟩`; the brokerage dispatch
  `get_trading_client().submit_order(...)` happens only after a request
  object was constructed, so `Except.ok intent` means "this intent, and
  nothing else, is dispatched" and `Except.error e` means nothing is
  dispatched.
* The Alpaca SDK request classes (MarketOrderRequest, LimitOrderRequest,
  StopOrderRequest, StopLimitOrderRequest, TrailingStopOrderRequest) all
  share one pydantic field set; a keyword argument the source omits is the
  SDK default `None`. They are modelled as one structure `ResolvedIntent`
  tagged with the constructed class, every omitted field `none`.
* Python 3.11+ formats a `str`-mixin enum member in an f-string as
  `ClassName.member_name`; `OrderType.pyStr` reproduces this rendering used
  by the `f"Unsupported order type..."` messages.
-/

namespace AlpacaApi

/-- models.py `OrderSide`: enum {buy, sell}. -/
inductive OrderSide where
  | buy
  | sell
  deriving DecidableEq, Repr

/-- models.py `OrderType`: enum {market, limit, stop, stop_limit, trailing_stop}. -/
inductive OrderType where
  | market
  | limit
  | stop
  | stop_limit
  | trailing_stop
  deriving DecidableEq, Repr

/-- models.py `TimeInForce`: enum {day, gtc, opg, cls, ioc, fok}. -/
inductive TimeInForce where
  | day
  | gtc
  | opg
  | cls
  | ioc
  | fok
  deriving DecidableEq, Repr

/-- models.py `PositionIntent`: enum {buy_to_open, buy_to_close, sell_to_open, sell_to_close}. -/
inductive PositionIntent where
  | buy_to_open
  | buy_to_close
  | sell_to_open
  | sell_to_close
  deriving DecidableEq, Repr

/-- The `.value` string of an `OrderType` member. -/
def OrderType.value : OrderType → String
  | .market => "market"
  | .limit => "limit"
  | .stop => "stop"
  | .stop_limit => "stop_limit"
  | .trailing_stop => "trailing_stop"

/-- How Python 3.11+ renders an `OrderType` member inside an f-string:
`f"{order.type}"` gives `"OrderType.<member name>"` for a `str`-mixin enum. -/
def OrderType.pyStr (t : OrderType) : String := "OrderType." ++ t.value

/-- The `.value` string of an `OrderSide` member. -/
def OrderSide.value : OrderSide → String
  | .buy => "buy"
  | .sell => "sell"

/-- models.py `OrderRequest` (equity orders). Field defaults mirror the
pydantic defaults. -/
structure OrderRequest where
  symbol : String
  qty : Option ℚ := none
  notional : Option ℚ := none
  side : OrderSide
  type : OrderType
  time_in_force : TimeInForce := TimeInForce.day
  limit_price : Option ℚ := none
  stop_price : Option ℚ := none
  trail_price : Option ℚ := none
  trail_percent : Option ℚ := none
  extended_hours : Bool := false
  client_order_id : Option String := none
  deriving DecidableEq, Repr

/-- models.py `OptionOrderRequest` (single-leg option orders). -/
structure OptionOrderRequest where
  symbol : String
  qty : Int
  side : OrderSide
  type : OrderType
  time_in_force : TimeInForce := TimeInForce.day
  position_intent : Option PositionIntent := none
  limit_price : Option ℚ := none
  stop_price : Option ℚ := none
  deriving DecidableEq, Repr

/-- models.py `OptionLeg`: one leg of a multi-leg order. -/
structure OptionLeg where
  symbol : String
  ratio_qty : ℚ
  side : Option OrderSide := none
  position_intent : Option PositionIntent := none
  deriving DecidableEq, Repr

/-- models.py `MultiLegOrderRequest`. -/
structure MultiLegOrderRequest where
  qty : Int
  type : OrderType
  time_in_force : TimeInForce := TimeInForce.day
  legs : List OptionLeg
  limit_price : Option ℚ := none
  deriving DecidableEq, Repr

/-- models.py `ClosePositionRequest`. -/
structure ClosePositionRequest where
  qty : Option ℚ := none
  percentage : Option ℚ := none
  deriving DecidableEq, Repr

/-- Which Alpaca SDK request class the resolver constructed. -/
inductive AlpacaRequestKind where
  | MarketOrderRequest
  | LimitOrderRequest
  | StopOrderRequest
  | StopLimitOrderRequest
  | TrailingStopOrderRequest
  deriving DecidableEq, Repr

/-- Alpaca SDK `OrderClass`; only `MLEG` is ever passed by this repository. -/
inductive AlpacaOrderClass where
  | simple
  | mleg
  deriving DecidableEq, Repr

/-- Alpaca SDK `OptionLegRequest` as constructed in `submit_multi_leg_order`. -/
structure OptionLegRequest where
  symbol : String
  ratio_qty : ℚ
  side : Option OrderSide
  position_intent : Option PositionIntent
  deriving DecidableEq, Repr

/-- The resolved order intent: an Alpaca SDK order-request object as
constructed by the resolvers. A field the source's construction call omits is
the SDK default `none`. -/
structure ResolvedIntent where
  kind : AlpacaRequestKind
  symbol : Option String := none
  qty : Option ℚ := none
  notional : Option ℚ := none
  side : Option OrderSide := none
  time_in_force : TimeInForce
  limit_price : Option ℚ := none
  stop_price : Option ℚ := none
  trail_price : Option ℚ := none
  trail_percent : Option ℚ := none
  extended_hours : Option Bool := none
  client_order_id : Option String := none
  position_intent : Option PositionIntent := none
  order_class : Option AlpacaOrderClass := none
  legs : Option (List OptionLegRequest) := none
  deriving DecidableEq, Repr

/-- `raise HTTPException(status_code=..., detail=...)`. -/
structure HTTPException where
  status_code : Nat
  detail : String
  deriving DecidableEq, Repr

/-- main.py `submit_order` (equity), up to the brokerage dispatch: the
if/elif chain on `order.type.value` that builds exactly one SDK request or
raises a 400. -/
def submit_order (order : OrderRequest) : Except HTTPException ResolvedIntent :=
  let side : OrderSide := if order.side.value = "buy" then OrderSide.buy else OrderSide.sell
  let tif : TimeInForce := order.time_in_force
  if order.type.value = "market" then
    Except.ok { kind := AlpacaRequestKind.MarketOrderRequest
                symbol := some order.symbol
                qty := order.qty
                notional := order.notional
                side := some side
                time_in_force := tif
                extended_hours := some order.extended_hours
                client_order_id := order.client_order_id }
  else if order.type.value = "limit" then
    match order.limit_price with
    | none => Except.error ⟨400, "limit_price required for limit orders"⟩
    | some lp =>
      Except.ok { kind := AlpacaRequestKind.LimitOrderRequest
                  symbol := some order.symbol
                  qty := order.qty
                  notional := order.notional
                  side := some side
                  time_in_force := tif
                  limit_price := some lp
                  extended_hours := some order.extended_hours
                  client_order_id := order.client_order_id }
  else if order.type.value = "stop" then
    match order.stop_price with
    | none => Except.error ⟨400, "stop_price required for stop orders"⟩
    | some sp =>
      Except.ok { kind := AlpacaRequestKind.StopOrderRequest
                  symbol := some order.symbol
                  qty := order.qty
                  notional := order.notional
                  side := some side
                  time_in_force := tif
                  stop_price := some sp
                  extended_hours := some order.extended_hours
                  client_order_id := order.client_order_id }
  else if order.type.value = "stop_limit" then
    match order.limit_price, order.stop_price with
    | some lp, some sp =>
      Except.ok { kind := AlpacaRequestKind.StopLimitOrderRequest
                  symbol := some order.symbol
                  qty := order.qty
                  side := some side
                  time_in_force := tif
                  limit_price := some lp
                  stop_price := some sp
                  extended_hours := some order.extended_hours
                  client_order_id := order.client_order_id }
    | _, _ =>
      Except.error ⟨400, "limit_price and stop_price required for stop_limit orders"⟩
  else if order.type.value = "trailing_stop" then
    Except.ok { kind := AlpacaRequestKind.TrailingStopOrderRequest
                symbol := some order.symbol
                qty := order.qty
                side := some side
                time_in_force := tif
                trail_price := order.trail_price
                trail_percent := order.trail_percent
                extended_hours := some order.extended_hours
                client_order_id := order.client_order_id }
  else
    Except.error ⟨400, "Unsupported order type: " ++ order.type.pyStr⟩

/-- main.py `submit_option_order` (single-leg option orders), up to the
brokerage dispatch. `OrderType(order.type.value)` and
`TimeInForce(order.time_in_force.value)` are value-preserving enum
round-trips; `AlpacaPositionIntent(order.position_intent.value)` is applied
only when `order.position_intent` is truthy (every member of the enum is a
non-empty string, hence truthy), so `position_intent` passes through. -/
def submit_option_order (order : OptionOrderRequest) : Except HTTPException ResolvedIntent :=
  let side : OrderSide := if order.side.value = "buy" then OrderSide.buy else OrderSide.sell
  let tif : TimeInForce := order.time_in_force
  let order_type : OrderType := order.type
  let position_intent : Option PositionIntent := order.position_intent
  if order_type = OrderType.market then
    Except.ok { kind := AlpacaRequestKind.MarketOrderRequest
                symbol := some order.symbol
                qty := some (order.qty : ℚ)
                side := some side
                time_in_force := tif
                position_intent := position_intent }
  else if order_type = OrderType.limit then
    match order.limit_price with
    | none => Except.error ⟨400, "limit_price required for limit orders"⟩
    | some lp =>
      Except.ok { kind := AlpacaRequestKind.LimitOrderRequest
                  symbol := some order.symbol
                  qty := some (order.qty : ℚ)
                  side := some side
                  time_in_force := tif
                  limit_price := some lp
                  position_intent := position_intent }
  else if order_type = OrderType.stop then
    match order.stop_price with
    | none => Except.error ⟨400, "stop_price required for stop orders"⟩
    | some sp =>
      Except.ok { kind := AlpacaRequestKind.StopOrderRequest
                  symbol := some order.symbol
                  qty := some (order.qty : ℚ)
                  side := some side
                  time_in_force := tif
                  stop_price := some sp
                  position_intent := position_intent }
  else if order_type = OrderType.stop_limit then
    match order.limit_price, order.stop_price with
    | some lp, some sp =>
      Except.ok { kind := AlpacaRequestKind.StopLimitOrderRequest
                  symbol := some order.symbol
                  qty := some (order.qty : ℚ)
                  side := some side
                  time_in_force := tif
                  limit_price := some lp
                  stop_price := some sp
                  position_intent := position_intent }
    | _, _ =>
      Except.error ⟨400, "limit_price and stop_price required for stop_limit orders"⟩
  else
    Except.error ⟨400, "Unsupported order type for options: " ++ order.type.pyStr⟩

/-- The per-leg construction inside `submit_multi_leg_order`'s loop:
`OrderSide(leg.side.value) if leg.side else None` and
`AlpacaPositionIntent(leg.position_intent.value) if leg.position_intent else
None` are value-preserving on present members and keep `None` absent. -/
def resolveLeg (leg : OptionLeg) : OptionLegRequest :=
  { symbol := leg.symbol
    ratio_qty := leg.ratio_qty
    side := leg.side
    position_intent := leg.position_intent }

/-- main.py `submit_multi_leg_order`, up to the brokerage dispatch: leg-count
bounds first, then the per-leg loop, then the type dispatch (limit, market,
else unsupported). -/
def submit_multi_leg_order (order : MultiLegOrderRequest) : Except HTTPException ResolvedIntent :=
  if order.legs.length < 2 then
    Except.error ⟨400, "At least 2 legs are required for multi-leg orders"⟩
  else if order.legs.length > 4 then
    Except.error ⟨400, "At most 4 legs are allowed for multi-leg orders"⟩
  else
    let tif : TimeInForce := order.time_in_force
    let order_type : OrderType := order.type
    let legs : List OptionLegRequest := order.legs.map resolveLeg
    if order_type = OrderType.limit then
      match order.limit_price with
      | none => Except.error ⟨400, "limit_price required for limit orders"⟩
      | some lp =>
        Except.ok { kind := AlpacaRequestKind.LimitOrderRequest
                    qty := some (order.qty : ℚ)
                    time_in_force := tif
                    limit_price := some lp
                    order_class := some AlpacaOrderClass.mleg
                    legs := some legs }
    else if order_type = OrderType.market then
      Except.ok { kind := AlpacaRequestKind.MarketOrderRequest
                  qty := some (order.qty : ℚ)
                  time_in_force := tif
                  order_class := some AlpacaOrderClass.mleg
                  legs := some legs }
    else
      Except.error ⟨400, "Unsupported order type for multi-leg: " ++ order.type.pyStr⟩

/-- Alpaca SDK `ClosePositionRequest` as constructed in `close_position`.
The source stringifies the decimals for the wire (`str(request.qty)`); the
embedding keeps the numeric value, which the stringification determines. -/
structure AlpacaCloseRequest where
  qty : Option ℚ := none
  percentage : Option ℚ := none
  deriving DecidableEq, Repr

/-- Python truthiness of an optional `Decimal`: `None` and zero are falsy,
every non-zero value is truthy. -/
def pyTruthy : Option ℚ → Bool
  | none => false
  | some v => decide (v ≠ 0)

/-- main.py `close_position`, restricted to what it forwards as
`close_options`: `None` (close the whole position) unless
`request and (request.qty or request.percentage)` is truthy, in which case an
`AlpacaCloseRequest` whose fields repeat the same truthiness test. -/
def close_position_options (request : Option ClosePositionRequest) : Option AlpacaCloseRequest :=
  match request with
  | none => none
  | some r =>
    if pyTruthy r.qty || pyTruthy r.percentage then
      some { qty := if pyTruthy r.qty then r.qty else none
             percentage := if pyTruthy r.percentage then r.percentage else none }
    else none

/-- A JSON-ish value as produced by `serialize_alpaca_response` on one field
of an SDK request object. -/
inductive JsonVal where
  | str (s : String)
  | num (q : ℚ)
  | boolean (b : Bool)
  | legList (ls : List OptionLegRequest)
  | null
  deriving DecidableEq, Repr

/-- Lift an optional string field to its serialized value. -/
def jsonOfStr : Option String → JsonVal
  | none => JsonVal.null
  | some s => JsonVal.str s

/-- Lift an optional numeric field to its serialized value. -/
def jsonOfNum : Option ℚ → JsonVal
  | none => JsonVal.null
  | some q => JsonVal.num q

/-- main.py `serialize_alpaca_response` applied to a resolved intent: the SDK
request objects are pydantic models, so serialization is their field-by-field
dump (enums dumped as their `.value` strings, absent fields as null). -/
def serialize_alpaca_response (i : ResolvedIntent) : List (String × JsonVal) :=
  [("symbol", jsonOfStr i.symbol),
   ("qty", jsonOfNum i.qty),
   ("notional", jsonOfNum i.notional),
   ("side", jsonOfStr (i.side.map OrderSide.value)),
   ("time_in_force", JsonVal.str (match i.time_in_force with
     | TimeInForce.day => "day"
     | TimeInForce.gtc => "gtc"
     | TimeInForce.opg => "opg"
     | TimeInForce.cls => "cls"
     | TimeInForce.ioc => "ioc"
     | TimeInForce.fok => "fok")),
   ("limit_price", jsonOfNum i.limit_price),
   ("stop_price", jsonOfNum i.stop_price),
   ("trail_price", jsonOfNum i.trail_price),
   ("trail_percent", jsonOfNum i.trail_percent),
   ("extended_hours", match i.extended_hours with
     | none => JsonVal.null
     | some b => JsonVal.boolean b),
   ("client_order_id", jsonOfStr i.client_order_id),
   ("position_intent", jsonOfStr (i.position_intent.map (fun p =>
     match p with
     | PositionIntent.buy_to_open => "buy_to_open"
     | PositionIntent.buy_to_close => "buy_to_close"
     | PositionIntent.sell_to_open => "sell_to_open"
     | PositionIntent.sell_to_close => "sell_to_close"))),
   ("order_class", jsonOfStr (i.order_class.map (fun c =>
     match c with
     | AlpacaOrderClass.simple => "simple"
     | AlpacaOrderClass.mleg => "mleg"))),
   ("legs", match i.legs with
     | none => JsonVal.null
     | some ls => JsonVal.legList ls)]

/-- Look a field up in a serialized response. -/
def lookupField (fields : List (String × JsonVal)) (k : String) : Option JsonVal :=
  (fields.find? (fun p => p.1 = k)).map Prod.snd

deriving instance DecidableEq for Except

/-- Reachability of the equity resolver's final `else` branch: some
schema-accepted `OrderRequest` resolves to an error whose detail is the
"Unsupported order type: " message. -/
def equityUnsupportedReachable : Prop :=
  ∃ o : OrderRequest, ∃ e : HTTPException,
    submit_order o = Except.error e ∧
    ∃ t : OrderType, e.detail = "Unsupported order type: " ++ t.pyStr

/-- Concrete equity limit order without a limit price. -/
def eqLimitNoPriceEx : OrderRequest :=
  { symbol := "AAPL", side := OrderSide.buy, type := OrderType.limit }

/-- Concrete equity limit order with limit price 5. -/
def limitReqEx : OrderRequest :=
  { symbol := "AAPL", side := OrderSide.buy, type := OrderType.limit, limit_price := some 5 }

/-- Concrete equity stop_limit order missing the stop price. -/
def eqStopLimitNoStopEx : OrderRequest :=
  { symbol := "AAPL", side := OrderSide.sell, type := OrderType.stop_limit,
    limit_price := some 5 }

/-- Concrete equity stop_limit order with both prices. -/
def eqStopLimitBothEx : OrderRequest :=
  { symbol := "AAPL", qty := some 3, side := OrderSide.sell, type := OrderType.stop_limit,
    limit_price := some 5, stop_price := some 4, notional := some 7 }

/-- Concrete equity market order: symbol AAPL, qty 10, side buy. -/
def eqMarketEx : OrderRequest :=
  { symbol := "AAPL", qty := some 10, side := OrderSide.buy, type := OrderType.market }

/-- Concrete equity trailing_stop order. -/
def eqTrailingEx : OrderRequest :=
  { symbol := "AAPL", qty := some 1, side := OrderSide.sell, type := OrderType.trailing_stop,
    trail_percent := some 1 }

/-- The spec's example single-leg option limit order, without a limit price. -/
def optLimitIntentNoPriceEx : OptionOrderRequest :=
  { symbol := "AAPL250117C00150000", qty := 1, side := OrderSide.buy, type := OrderType.limit,
    position_intent := some PositionIntent.buy_to_open }

/-- The spec's example single-leg option limit order, with limit price 5.50. -/
def optLimitIntentPriceEx : OptionOrderRequest :=
  { symbol := "AAPL250117C00150000", qty := 1, side := OrderSide.buy, type := OrderType.limit,
    position_intent := some PositionIntent.buy_to_open, limit_price := some (11 / 2) }

/-- Concrete single-leg option order with type trailing_stop. -/
def optTrailingEx : OptionOrderRequest :=
  { symbol := "AAPL250117C00150000", qty := 1, side := OrderSide.buy,
    type := OrderType.trailing_stop }

/-- A concrete option leg with side and position_intent present. -/
def legA : OptionLeg :=
  { symbol := "AAPL250117C00150000", ratio_qty := 1, side := some OrderSide.buy,
    position_intent := some PositionIntent.buy_to_open }

/-- A concrete option leg with side and position_intent absent. -/
def legB : OptionLeg :=
  { symbol := "AAPL250117C00155000", ratio_qty := 2 }

/-- Concrete 2-leg market multi-leg order. -/
def mleg2MarketEx : MultiLegOrderRequest :=
  { qty := 1, type := OrderType.market, legs := [legA, legB] }

/-- Concrete 1-leg multi-leg order with an unsupported type. -/
def mleg1StopEx : MultiLegOrderRequest :=
  { qty := 1, type := OrderType.stop, legs := [legA] }

/-- Concrete 5-leg multi-leg order with an unsupported type and no
limit_price. -/
def mleg5TrailingEx : MultiLegOrderRequest :=
  { qty := 1, type := OrderType.trailing_stop, legs := [legA, legB, legA, legB, legA] }

/-- Concrete 2-leg limit multi-leg order without a limit price. -/
def mleg2LimitNoPriceEx : MultiLegOrderRequest :=
  { qty := 1, type := OrderType.limit, legs := [legA, legB] }

/-- Concrete 2-leg limit multi-leg order with limit price 3. -/
def mleg2LimitPriceEx : MultiLegOrderRequest :=
  { qty := 1, type := OrderType.limit, legs := [legA, legB], limit_price := some 3 }

/-- Concrete 2-leg multi-leg order with type stop. -/
def mleg2StopEx : MultiLegOrderRequest :=
  { qty := 1, type := OrderType.stop, legs := [legA, legB] }

/-! ## Helper lemmas -/

/-- The `OrderSide.BUY if order.side.value == "buy" else OrderSide.SELL`
conversion is the identity on the wrapper enum. -/
theorem side_value_roundtrip (s : OrderSide) :
    (if s.value = "buy" then OrderSide.buy else OrderSide.sell) = s := by
  cases s <;> rfl

/-- Every error the equity resolver can produce has one of the three
price-requirement details; the final `else` branch is dead because the
if/elif chain covers all five members of `OrderType`. -/
theorem submit_order_error_detail (o : OrderRequest) (e : HTTPException)
    (h : submit_order o = Except.error e) :
    e.detail = "limit_price required for limit orders" ∨
    e.detail = "stop_price required for stop orders" ∨
    e.detail = "limit_price and stop_price required for stop_limit orders" := by
  rcases o with ⟨sym, qty, notional, side, ty, tif, lp, sp, tp, tpc, eh, coid⟩
  cases ty <;> cases lp <;> cases sp <;> simp_all [submit_order, OrderType.value] <;>
    (cases h; simp)

/-- The legs produced by `List.map resolveLeg` match the input legs
pointwise and in order: same length, and at every index symbol, ratio_qty,
side and position_intent are copied verbatim (absent side/position_intent
stays absent). -/
theorem map_resolveLeg_pointwise (legs : List OptionLeg) :
    (legs.map resolveLeg).length = legs.length ∧
    ∀ k : Fin (legs.map resolveLeg).length, ∃ hk : k.val < legs.length,
      ((legs.map resolveLeg).get k).symbol = (legs.get ⟨k.val, hk⟩).symbol ∧
      ((legs.map resolveLeg).get k).ratio_qty = (legs.get ⟨k.val, hk⟩).ratio_qty ∧
      ((legs.map resolveLeg).get k).side = (legs.get ⟨k.val, hk⟩).side ∧
      ((legs.map resolveLeg).get k).position_intent = (legs.get ⟨k.val, hk⟩).position_intent := by
  refine ⟨List.length_map _ _, ?_⟩
  intro k
  have hk : k.val < legs.length := by
    have := k.isLt
    simpa using this
  exact ⟨hk, by simp [List.get_eq_getElem, List.getElem_map, resolveLeg],
    by simp [List.get_eq_getElem, List.getElem_map, resolveLeg],
    by simp [List.get_eq_getElem, List.getElem_map, resolveLeg],
    by simp [List.get_eq_getElem, List.getElem_map, resolveLeg]⟩

/-! ## Claims -/

/-- C1: for every equity OrderRequest with type=limit, a missing limit_price
makes resolution fail with "limit_price required for limit orders" (so
nothing is dispatched), and a present limit_price makes resolution succeed
with the resolved intent's limit_price equal to the input. -/
theorem C1_equity_limit_price (o : OrderRequest) (h : o.type = OrderType.limit) :
    (o.limit_price = none →
      submit_order o = Except.error ⟨400, "limit_price required for limit orders"⟩) ∧
    (∀ lp : ℚ, o.limit_price = some lp →
      ∃ i : ResolvedIntent, submit_order o = Except.ok i ∧ i.limit_price = some lp) := by
  constructor
  · intro hnone
    simp [submit_order, h, OrderType.value, hnone]
  · intro lp hlp
    refine ⟨{ kind := AlpacaRequestKind.LimitOrderRequest
              symbol := some o.symbol
              qty := o.qty
              notional := o.notional
              side := some o.side
              time_in_force := o.time_in_force
              limit_price := some lp
              extended_hours := some o.extended_hours
              client_order_id := o.client_order_id }, ?_, rfl⟩
    simp [submit_order, h, OrderType.value, hlp, side_value_roundtrip]

/-- Witness for C1 at concrete inputs: AAPL limit buy with no price fails,
with price 5 succeeds carrying limit_price 5. -/
theorem C1_equity_limit_price_witness :
    submit_order eqLimitNoPriceEx =
      Except.error ⟨400, "limit_price required for limit orders"⟩ ∧
    ∃ i : ResolvedIntent, submit_order limitReqEx = Except.ok i ∧ i.limit_price = some 5 :=
  ⟨(C1_equity_limit_price eqLimitNoPriceEx rfl).1 rfl,
   (C1_equity_limit_price limitReqEx rfl).2 5 rfl⟩

/-- C2: for every equity OrderRequest with type=stop_limit, resolution fails
with the single combined message when either price is absent; with both
present it succeeds and the resolved intent carries symbol, qty, side,
time_in_force, both prices, extended_hours and client_order_id but not
notional (notional = none, unlike the market/limit/stop branches). -/
theorem C2_equity_stop_limit (o : OrderRequest) (h : o.type = OrderType.stop_limit) :
    ((o.limit_price = none ∨ o.stop_price = none) →
      submit_order o =
        Except.error ⟨400, "limit_price and stop_price required for stop_limit orders"⟩) ∧
    (∀ lp sp : ℚ, o.limit_price = some lp → o.stop_price = some sp →
      submit_order o = Except.ok
        { kind := AlpacaRequestKind.StopLimitOrderRequest
          symbol := some o.symbol
          qty := o.qty
          notional := none
          side := some o.side
          time_in_force := o.time_in_force
          limit_price := some lp
          stop_price := some sp
          extended_hours := some o.extended_hours
          client_order_id := o.client_order_id }) := by
  constructor
  · intro hnone
    rcases hnone with h1 | h1 <;>
      rcases h2 : o.limit_price with _ | lp <;>
      rcases h3 : o.stop_price with _ | sp <;>
      simp_all [submit_order, OrderType.value]
  · intro lp sp hlp hsp
    simp [submit_order, h, OrderType.value, hlp, hsp, side_value_roundtrip]

/-- Witness for C2 at concrete inputs: a stop_limit order missing the stop
price fails with the combined message; one with both prices succeeds,
notional stripped. -/
theorem C2_equity_stop_limit_witness :
    submit_order eqStopLimitNoStopEx =
      Except.error ⟨400, "limit_price and stop_price required for stop_limit orders"⟩ ∧
    submit_order eqStopLimitBothEx = Except.ok
      { kind := AlpacaRequestKind.StopLimitOrderRequest
        symbol := some eqStopLimitBothEx.symbol
        qty := eqStopLimitBothEx.qty
        notional := none
        side := some eqStopLimitBothEx.side
        time_in_force := eqStopLimitBothEx.time_in_force
        limit_price := some 5
        stop_price := some 4
        extended_hours := some eqStopLimitBothEx.extended_hours
        client_order_id := eqStopLimitBothEx.client_order_id } :=
  ⟨(C2_equity_stop_limit eqStopLimitNoStopEx rfl).1 (Or.inr rfl),
   (C2_equity_stop_limit eqStopLimitBothEx rfl).2 5 4 rfl rfl⟩

/-- C3: every MultiLegOrderRequest with fewer than 2 legs fails with the
"At least 2 legs" message and every one with more than 4 legs fails with the
"At most 4 legs" message, regardless of type or limit_price: the bound check
precedes all type-specific validation. -/
theorem C3_mleg_leg_count_bounds (m : MultiLegOrderRequest) :
    (m.legs.length < 2 →
      submit_multi_leg_order m =
        Except.error ⟨400, "At least 2 legs are required for multi-leg orders"⟩) ∧
    (m.legs.length > 4 →
      submit_multi_leg_order m =
        Except.error ⟨400, "At most 4 legs are allowed for multi-leg orders"⟩) := by
  constructor
  · intro hlt
    simp [submit_multi_leg_order, hlt]
  · intro hgt
    have h2 : ¬(m.legs.length < 2) := by omega
    simp [submit_multi_leg_order, h2, hgt]

/-- Witness for C3: a 1-leg request with an unsupported type gets the
leg-count error, and a 5-leg request with an unsupported type and no
limit_price gets the leg-count error, not the type error. -/
theorem C3_mleg_leg_count_bounds_witness :
    submit_multi_leg_order mleg1StopEx =
      Except.error ⟨400, "At least 2 legs are required for multi-leg orders"⟩ ∧
    submit_multi_leg_order mleg5TrailingEx =
      Except.error ⟨400, "At most 4 legs are allowed for multi-leg orders"⟩ :=
  ⟨(C3_mleg_leg_count_bounds mleg1StopEx).1 (by decide),
   (C3_mleg_leg_count_bounds mleg5TrailingEx).2 (by decide)⟩

/-- C4 counterexample: the equity resolver's "Unsupported order type: ..."
failure is NOT reachable for any schema-accepted input — the if/elif chain
handles all five members of the `OrderType` enum, so the final `else` is
dead code and no equity resolution error carries that message. -/
theorem C4_equity_unsupported_unreachable : ¬equityUnsupportedReachable := by
  rintro ⟨o, e, herr, t, hdet⟩
  rcases submit_order_error_detail o e herr with h | h | h <;> rw [h] at hdet <;>
    cases t <;> exact absurd hdet (by decide)

/-- C4 amended: for schema-accepted inputs, the single-leg option resolver
and the multi-leg resolver fail on unsupported type values with a message
naming the rejected value and the order category; the equity resolver's
"Unsupported order type: <value>" branch, by contrast, is unreachable —
every error it produces is one of the price-requirement messages, never one
with the unsupported-type shape. -/
theorem C4_unsupported_type_messages :
    (∀ o : OptionOrderRequest,
      o.type ≠ OrderType.market → o.type ≠ OrderType.limit →
      o.type ≠ OrderType.stop → o.type ≠ OrderType.stop_limit →
      submit_option_order o =
        Except.error ⟨400, "Unsupported order type for options: " ++ o.type.pyStr⟩) ∧
    (∀ m : MultiLegOrderRequest,
      2 ≤ m.legs.length → m.legs.length ≤ 4 →
      m.type ≠ OrderType.market → m.type ≠ OrderType.limit →
      submit_multi_leg_order m =
        Except.error ⟨400, "Unsupported order type for multi-leg: " ++ m.type.pyStr⟩) ∧
    (∀ o : OrderRequest, ∀ e : HTTPException, submit_order o = Except.error e →
      ∀ t : OrderType, e.detail ≠ "Unsupported order type: " ++ t.pyStr) := by
  refine ⟨?_, ?_, ?_⟩
  · intro o h1 h2 h3 h4
    rcases o with ⟨sym, qty, side, ty, tif, pi, lp, sp⟩
    cases ty
    · exact absurd rfl h1
    · exact absurd rfl h2
    · exact absurd rfl h3
    · exact absurd rfl h4
    · rfl
  · intro m hlen hlen2 h1 h2
    have ha : ¬(m.legs.length < 2) := by omega
    have hb : ¬(m.legs.length > 4) := by omega
    rcases m with ⟨qty, ty, tif, legs, lp⟩
    cases ty
    · exact absurd rfl h1
    · exact absurd rfl h2
    all_goals simp [submit_multi_leg_order, ha, hb]
  · intro o e herr
    rcases submit_order_error_detail o e herr with h | h | h <;> rw [h] <;>
      intro t <;> cases t <;> decide

/-- Witness for the amended C4: trailing_stop is rejected by the option
resolver, stop by the multi-leg resolver, both with category-and-value
messages; the equity resolver's limit-order error does not have the
unsupported-type shape. -/
theorem C4_unsupported_type_messages_witness :
    submit_option_order optTrailingEx =
      Except.error ⟨400, "Unsupported order type for options: " ++ optTrailingEx.type.pyStr⟩ ∧
    submit_multi_leg_order mleg2StopEx =
      Except.error ⟨400, "Unsupported order type for multi-leg: " ++ mleg2StopEx.type.pyStr⟩ ∧
    HTTPException.detail ⟨400, "limit_price required for limit orders"⟩ ≠
      "Unsupported order type: " ++ OrderType.pyStr OrderType.market :=
  ⟨C4_unsupported_type_messages.1 optTrailingEx
      (by decide) (by decide) (by decide) (by decide),
   C4_unsupported_type_messages.2.1 mleg2StopEx
      (by decide) (by decide) (by decide) (by decide),
   C4_unsupported_type_messages.2.2 eqLimitNoPriceEx
      ⟨400, "limit_price required for limit orders"⟩ (by decide) OrderType.market⟩

/-- C5: a MultiLegOrderRequest with 2..4 legs and a valid type/price
combination resolves successfully, and its resolved leg sequence has the
same length as the input leg sequence with, at every index, symbol and
ratio_qty copied verbatim and side/position_intent propagated unchanged
(absent stays absent): no reordering, insertion or removal. -/
theorem C5_mleg_legs_resolved_in_order (m : MultiLegOrderRequest)
    (hlen : 2 ≤ m.legs.length) (hlen2 : m.legs.length ≤ 4)
    (hty : m.type = OrderType.market ∨
      (m.type = OrderType.limit ∧ ∃ lp, m.limit_price = some lp)) :
    ∃ i : ResolvedIntent, submit_multi_leg_order m = Except.ok i ∧
      ∃ ls : List OptionLegRequest, i.legs = some ls ∧
        ls.length = m.legs.length ∧
        ∀ k : Fin ls.length, ∃ hk : k.val < m.legs.length,
          (ls.get k).symbol = (m.legs.get ⟨k.val, hk⟩).symbol ∧
          (ls.get k).ratio_qty = (m.legs.get ⟨k.val, hk⟩).ratio_qty ∧
          (ls.get k).side = (m.legs.get ⟨k.val, hk⟩).side ∧
          (ls.get k).position_intent = (m.legs.get ⟨k.val, hk⟩).position_intent := by
  have ha : ¬(m.legs.length < 2) := by omega
  have hb : ¬(m.legs.length > 4) := by omega
  rcases hty with hm | ⟨hl, lp, hlp⟩
  · refine ⟨{ kind := AlpacaRequestKind.MarketOrderRequest
              qty := some (m.qty : ℚ)
              time_in_force := m.time_in_force
              order_class := some AlpacaOrderClass.mleg
              legs := some (m.legs.map resolveLeg) }, ?_,
      m.legs.map resolveLeg, rfl, map_resolveLeg_pointwise m.legs⟩
    simp [submit_multi_leg_order, ha, hb, hm]
  · refine ⟨{ kind := AlpacaRequestKind.LimitOrderRequest
              qty := some (m.qty : ℚ)
              time_in_force := m.time_in_force
              limit_price := some lp
              order_class := some AlpacaOrderClass.mleg
              legs := some (m.legs.map resolveLeg) }, ?_,
      m.legs.map resolveLeg, rfl, map_resolveLeg_pointwise m.legs⟩
    simp [submit_multi_leg_order, ha, hb, hl, hlp]

/-- Witness for C5 at a concrete 2-leg market request whose second leg has
absent side and position_intent. -/
theorem C5_mleg_legs_resolved_in_order_witness :
    ∃ i : ResolvedIntent, submit_multi_leg_order mleg2MarketEx = Except.ok i ∧
      ∃ ls : List OptionLegRequest, i.legs = some ls ∧
        ls.length = mleg2MarketEx.legs.length ∧
        ∀ k : Fin ls.length, ∃ hk : k.val < mleg2MarketEx.legs.length,
          (ls.get k).symbol = (mleg2MarketEx.legs.get ⟨k.val, hk⟩).symbol ∧
          (ls.get k).ratio_qty = (mleg2MarketEx.legs.get ⟨k.val, hk⟩).ratio_qty ∧
          (ls.get k).side = (mleg2MarketEx.legs.get ⟨k.val, hk⟩).side ∧
          (ls.get k).position_intent = (mleg2MarketEx.legs.get ⟨k.val, hk⟩).position_intent :=
  C5_mleg_legs_resolved_in_order mleg2MarketEx (by decide) (by decide) (Or.inl rfl)

/-- C6: under a valid leg count, only market and limit resolve; limit
without limit_price fails with the limit_price message; every other type
fails with the multi-leg unsupported-type message naming the value; and
every successful resolution carries the MLEG order class. -/
theorem C6_mleg_type_dispatch (m : MultiLegOrderRequest)
    (hlen : 2 ≤ m.legs.length) (hlen2 : m.legs.length ≤ 4) :
    (m.type = OrderType.market →
      ∃ i, submit_multi_leg_order m = Except.ok i ∧
        i.order_class = some AlpacaOrderClass.mleg) ∧
    (m.type = OrderType.limit → m.limit_price = none →
      submit_multi_leg_order m =
        Except.error ⟨400, "limit_price required for limit orders"⟩) ∧
    (∀ lp : ℚ, m.type = OrderType.limit → m.limit_price = some lp →
      ∃ i, submit_multi_leg_order m = Except.ok i ∧
        i.order_class = some AlpacaOrderClass.mleg) ∧
    (m.type ≠ OrderType.market → m.type ≠ OrderType.limit →
      submit_multi_leg_order m =
        Except.error ⟨400, "Unsupported order type for multi-leg: " ++ m.type.pyStr⟩) ∧
    (∀ i, submit_multi_leg_order m = Except.ok i →
      i.order_class = some AlpacaOrderClass.mleg) := by
  have ha : ¬(m.legs.length < 2) := by omega
  have hb : ¬(m.legs.length > 4) := by omega
  refine ⟨?_, ?_, ?_, ?_, ?_⟩
  · intro hm
    refine ⟨{ kind := AlpacaRequestKind.MarketOrderRequest
              qty := some (m.qty : ℚ)
              time_in_force := m.time_in_force
              order_class := some AlpacaOrderClass.mleg
              legs := some (m.legs.map resolveLeg) }, ?_, rfl⟩
    simp [submit_multi_leg_order, ha, hb, hm]
  · intro hl hnone
    simp [submit_multi_leg_order, ha, hb, hl, hnone]
  · intro lp hl hlp
    refine ⟨{ kind := AlpacaRequestKind.LimitOrderRequest
              qty := some (m.qty : ℚ)
              time_in_force := m.time_in_force
              limit_price := some lp
              order_class := some AlpacaOrderClass.mleg
              legs := some (m.legs.map resolveLeg) }, ?_, rfl⟩
    simp [submit_multi_leg_order, ha, hb, hl, hlp]
  · intro h1 h2
    rcases m with ⟨qty, ty, tif, legs, lp⟩
    cases ty
    · exact absurd rfl h1
    · exact absurd rfl h2
    all_goals simp [submit_multi_leg_order, ha, hb]
  · intro i hok
    rcases m with ⟨qty, ty, tif, legs, lp⟩
    unfold submit_multi_leg_order at hok
    rw [if_neg ha, if_neg hb] at hok
    cases ty <;> cases lp <;> simp_all <;> simp [← hok]

/-- Witness for C6 at concrete 2-leg requests: market succeeds with MLEG,
limit without price fails, limit with price succeeds with MLEG, stop is
unsupported. -/
theorem C6_mleg_type_dispatch_witness :
    (∃ i, submit_multi_leg_order mleg2MarketEx = Except.ok i ∧
      i.order_class = some AlpacaOrderClass.mleg) ∧
    submit_multi_leg_order mleg2LimitNoPriceEx =
      Except.error ⟨400, "limit_price required for limit orders"⟩ ∧
    (∃ i, submit_multi_leg_order mleg2LimitPriceEx = Except.ok i ∧
      i.order_class = some AlpacaOrderClass.mleg) ∧
    submit_multi_leg_order mleg2StopEx =
      Except.error ⟨400, "Unsupported order type for multi-leg: " ++ mleg2StopEx.type.pyStr⟩ :=
  ⟨(C6_mleg_type_dispatch mleg2MarketEx (by decide) (by decide)).1 rfl,
   (C6_mleg_type_dispatch mleg2LimitNoPriceEx (by decide) (by decide)).2.1 rfl rfl,
   (C6_mleg_type_dispatch mleg2LimitPriceEx (by decide) (by decide)).2.2.1 3 rfl rfl,
   (C6_mleg_type_dispatch mleg2StopEx (by decide) (by decide)).2.2.2.1
      (by decide) (by decide)⟩

/-- C7: a single-leg option order whose type is outside
market/limit/stop/stop_limit (which, for the schema's enum, means exactly
trailing_stop) fails with the options unsupported-type message naming the
value, while the equity resolver accepts trailing_stop and resolves it to a
trailing-stop intent. -/
theorem C7_option_rejects_trailing_stop :
    (∀ o : OptionOrderRequest,
      o.type ≠ OrderType.market → o.type ≠ OrderType.limit →
      o.type ≠ OrderType.stop → o.type ≠ OrderType.stop_limit →
      o.type = OrderType.trailing_stop ∧
      submit_option_order o =
        Except.error ⟨400, "Unsupported order type for options: " ++ o.type.pyStr⟩) ∧
    (∀ e : OrderRequest, e.type = OrderType.trailing_stop →
      ∃ i, submit_order e = Except.ok i ∧
        i.kind = AlpacaRequestKind.TrailingStopOrderRequest) := by
  constructor
  · intro o h1 h2 h3 h4
    rcases o with ⟨sym, qty, side, ty, tif, pi, lp, sp⟩
    cases ty
    · exact absurd rfl h1
    · exact absurd rfl h2
    · exact absurd rfl h3
    · exact absurd rfl h4
    · exact ⟨rfl, rfl⟩
  · intro e he
    refine ⟨{ kind := AlpacaRequestKind.TrailingStopOrderRequest
              symbol := some e.symbol
              qty := e.qty
              side := some e.side
              time_in_force := e.time_in_force
              trail_price := e.trail_price
              trail_percent := e.trail_percent
              extended_hours := some e.extended_hours
              client_order_id := e.client_order_id }, ?_, rfl⟩
    simp [submit_order, he, OrderType.value, side_value_roundtrip]

/-- Witness for C7: a trailing_stop option order is rejected, a
trailing_stop equity order is accepted. -/
theorem C7_option_rejects_trailing_stop_witness :
    (optTrailingEx.type = OrderType.trailing_stop ∧
      submit_option_order optTrailingEx =
        Except.error ⟨400, "Unsupported order type for options: " ++ optTrailingEx.type.pyStr⟩) ∧
    (∃ i, submit_order eqTrailingEx = Except.ok i ∧
      i.kind = AlpacaRequestKind.TrailingStopOrderRequest) :=
  ⟨C7_option_rejects_trailing_stop.1 optTrailingEx
      (by decide) (by decide) (by decide) (by decide),
   C7_option_rejects_trailing_stop.2 eqTrailingEx rfl⟩

/-- C8: a successfully resolved single-leg option intent carries the input's
position_intent unchanged (absent stays absent) and never carries notional
or extended_hours; a limit option order without limit_price fails with the
limit_price message and with a limit_price it succeeds, position_intent
preserved. -/
theorem C8_option_position_intent (o : OptionOrderRequest) :
    (∀ i : ResolvedIntent, submit_option_order o = Except.ok i →
      i.position_intent = o.position_intent ∧ i.notional = none ∧
      i.extended_hours = none) ∧
    (o.type = OrderType.limit → o.limit_price = none →
      submit_option_order o = Except.error ⟨400, "limit_price required for limit orders"⟩) ∧
    (∀ lp : ℚ, o.type = OrderType.limit → o.limit_price = some lp →
      ∃ i, submit_option_order o = Except.ok i ∧
        i.position_intent = o.position_intent) := by
  refine ⟨?_, ?_, ?_⟩
  · intro i hok
    rcases o with ⟨sym, qty, side, ty, tif, pi, lp, sp⟩
    cases ty <;> cases lp <;> cases sp <;>
      simp_all [submit_option_order] <;> simp [← hok]
  · intro hl hnone
    simp [submit_option_order, hl, hnone]
  · intro lp hl hlp
    refine ⟨{ kind := AlpacaRequestKind.LimitOrderRequest
              symbol := some o.symbol
              qty := some (o.qty : ℚ)
              side := some o.side
              time_in_force := o.time_in_force
              limit_price := some lp
              position_intent := o.position_intent }, ?_, rfl⟩
    simp [submit_option_order, hl, hlp, side_value_roundtrip]

/-- Witness for C8: the spec's example option order with
position_intent=buy_to_open fails without limit_price and succeeds with
limit_price 5.50, position_intent preserved. -/
theorem C8_option_position_intent_witness :
    submit_option_order optLimitIntentNoPriceEx =
      Except.error ⟨400, "limit_price required for limit orders"⟩ ∧
    ∃ i, submit_option_order optLimitIntentPriceEx = Except.ok i ∧
      i.position_intent = some PositionIntent.buy_to_open :=
  ⟨(C8_option_position_intent optLimitIntentNoPriceEx).2.1 rfl rfl,
   (C8_option_position_intent optLimitIntentPriceEx).2.2 (11 / 2) rfl rfl⟩

/-- C9: every equity market order resolves successfully with no price field
required; the resolved intent carries exactly symbol, qty, notional, side,
time_in_force, extended_hours and client_order_id (every other field
absent), and resolving then serializing preserves symbol, qty and side
unchanged. -/
theorem C9_market_round_trip (o : OrderRequest) (h : o.type = OrderType.market) :
    ∃ i : ResolvedIntent, submit_order o = Except.ok i ∧
      i = { kind := AlpacaRequestKind.MarketOrderRequest
            symbol := some o.symbol
            qty := o.qty
            notional := o.notional
            side := some o.side
            time_in_force := o.time_in_force
            extended_hours := some o.extended_hours
            client_order_id := o.client_order_id } ∧
      lookupField (serialize_alpaca_response i) "symbol" = some (JsonVal.str o.symbol) ∧
      lookupField (serialize_alpaca_response i) "qty" = some (jsonOfNum o.qty) ∧
      lookupField (serialize_alpaca_response i) "side" = some (JsonVal.str o.side.value) := by
  refine ⟨{ kind := AlpacaRequestKind.MarketOrderRequest
            symbol := some o.symbol
            qty := o.qty
            notional := o.notional
            side := some o.side
            time_in_force := o.time_in_force
            extended_hours := some o.extended_hours
            client_order_id := o.client_order_id }, ?_, rfl, ?_, ?_, ?_⟩
  · simp [submit_order, h, OrderType.value, side_value_roundtrip]
  · simp [serialize_alpaca_response, lookupField, List.find?, jsonOfStr]
  · simp [serialize_alpaca_response, lookupField, List.find?]
  · simp [serialize_alpaca_response, lookupField, List.find?, jsonOfStr]

/-- Witness for C9 at the spec's example: symbol AAPL, qty 10, side buy. -/
theorem C9_market_round_trip_witness :
    ∃ i : ResolvedIntent, submit_order eqMarketEx = Except.ok i ∧
      i = { kind := AlpacaRequestKind.MarketOrderRequest
            symbol := some eqMarketEx.symbol
            qty := eqMarketEx.qty
            notional := eqMarketEx.notional
            side := some eqMarketEx.side
            time_in_force := eqMarketEx.time_in_force
            extended_hours := some eqMarketEx.extended_hours
            client_order_id := eqMarketEx.client_order_id } ∧
      lookupField (serialize_alpaca_response i) "symbol" =
        some (JsonVal.str eqMarketEx.symbol) ∧
      lookupField (serialize_alpaca_response i) "qty" = some (jsonOfNum eqMarketEx.qty) ∧
      lookupField (serialize_alpaca_response i) "side" =
        some (JsonVal.str eqMarketEx.side.value) :=
  C9_market_round_trip eqMarketEx rfl

/-- The forwarded close options are present exactly when the Python
truthiness test on qty or percentage passes. -/
theorem close_position_options_isSome (q p : Option ℚ) :
    (close_position_options (some ⟨q, p⟩)).isSome = (pyTruthy q || pyTruthy p) := by
  by_cases h : (pyTruthy q || pyTruthy p) = true <;>
    simp [close_position_options, h]

/-- C10: close_position forwards no close options when qty and percentage
are each absent or zero (zero behaves exactly like absent), and forwards a
close-options payload exactly when at least one of them is present and
non-zero. -/
theorem C10_close_position_zero_like_absent (r : ClosePositionRequest) :
    ((r.qty = none ∨ r.qty = some 0) → (r.percentage = none ∨ r.percentage = some 0) →
      close_position_options (some r) = none) ∧
    ((close_position_options (some r)).isSome = true ↔
      (∃ v : ℚ, r.qty = some v ∧ v ≠ 0) ∨ (∃ v : ℚ, r.percentage = some v ∧ v ≠ 0)) := by
  rcases r with ⟨q, p⟩
  constructor
  · rintro (hq | hq) <;> rintro (hp | hp) <;>
      simp_all [close_position_options, pyTruthy]
  · rw [close_position_options_isSome]
    cases q <;> cases p <;> simp [pyTruthy]

/-- Witness for C10: qty=0 with absent percentage, and qty=0 with
percentage=0, both forward no close options. -/
theorem C10_close_position_zero_like_absent_witness :
    close_position_options (some { qty := some 0, percentage := none }) = none :=
  (C10_close_position_zero_like_absent { qty := some 0, percentage := none }).1
    (Or.inr rfl) (Or.inl rfl)

end AlpacaApi
